import Mathlib

/-!
Shallow embedding of the answer-synthesis and submission pipeline of
`src/backend/app.py` (Flask backend automating EDUSP tasks), together with
proofs about the claims of the specification.

JSON values of the upstream wire format are modelled by `JVal`; Python
dictionaries are association lists whose assignment semantics
(overwrite-in-place, insertion order preserved) is `objInsert`.  Python
exceptions are modelled by `Except String`: a Python function that can raise
returns `Except String α`, a `try/except` is a `match` on that result.
Timestamps (`now_iso()`) and random draws (`random.randint`) are passed in as
parameters, and the HTTP calls of the remote task service are oracle
parameters `fetchD`/`submitA`, so every definition is executable.

The file's definitions follow the Python source line by line; the source
defines `transform_json_for_submission` twice (line 211 with an `answers_in`
parameter and line 855 without), and as Python resolves names at import
time, the later definition is the one every runtime call reaches.  Both are
embedded: `transform_json_for_submission_v1` (line 211, shadowed) and
`transform_json_for_submission` (line 855, effective).
-/

/-- A JSON value as Python sees it: None, bool, int, str, list, dict.
Dicts are insertion-ordered association lists (Python 3.7+ semantics). -/
inductive JVal where
  | null : JVal
  | bool : Bool → JVal
  | num : Int → JVal
  | str : String → JVal
  | arr : List JVal → JVal
  | obj : List (String × JVal) → JVal

/-- Python truthiness of a value (`bool(v)`). -/
def JVal.truthy : JVal → Bool
  | .null => false
  | .bool b => b
  | .num n => n != 0
  | .str s => s != ""
  | .arr xs => !xs.isEmpty
  | .obj fs => !fs.isEmpty

/-- First binding of a key in a dict (Python dict lookup). -/
def jFind : List (String × JVal) → String → Option JVal
  | [], _ => none
  | (k1, v) :: rest, k => if k1 = k then some v else jFind rest k

/-- `d.get(k)`: the binding or None. -/
def jGetD (fs : List (String × JVal)) (k : String) : JVal :=
  (jFind fs k).getD .null

/-- Lookup of a key in a value known to be a dict; `none` otherwise. -/
def jLookup : JVal → String → Option JVal
  | .obj fs, k => jFind fs k
  | _, _ => none

/-- `v.get(k)` on an arbitrary value: AttributeError unless `v` is a dict. -/
def JVal.dget : JVal → String → Except String JVal
  | .obj fs, k => .ok (jGetD fs k)
  | _, _ => .error "AttributeError: object has no attribute get"

/-- `v.get(k, default)`. -/
def JVal.dgetOr : JVal → String → JVal → Except String JVal
  | .obj fs, k, d => .ok ((jFind fs k).getD d)
  | _, _, _ => .error "AttributeError: object has no attribute get"

/-- Does the list of characters start with the pattern? -/
def subAt : List Char → List Char → Bool
  | [], _ => true
  | _ :: _, [] => false
  | a :: as, b :: bs => a = b && subAt as bs

/-- Substring test on character lists. -/
def hasSub (needle : List Char) : List Char → Bool
  | [] => needle.isEmpty
  | c :: rest => subAt needle (c :: rest) || hasSub needle rest

/-- Python `k in v` for a string key: dict key membership, list element
equality, substring for strings, TypeError otherwise. -/
def pyContains : JVal → String → Except String Bool
  | .obj fs, k => .ok (jFind fs k).isSome
  | .arr xs, k => .ok (xs.any fun v => match v with | .str s => s = k | _ => false)
  | .str s, k => .ok (hasSub k.data s.data)
  | _, _ => .error "TypeError: argument is not iterable"

/-- Python iteration `for x in v`: list elements, dict keys, string
characters; TypeError otherwise. -/
def pyIter : JVal → Except String (List JVal)
  | .arr xs => .ok xs
  | .obj fs => .ok (fs.map fun kv => JVal.str kv.1)
  | .str s => .ok (s.data.map fun c => JVal.str (String.singleton c))
  | _ => .error "TypeError: object is not iterable"

mutual

/-- Python `repr` of a value (string escaping inside reprs is elided). -/
def pyRepr : JVal → String
  | .null => "None"
  | .bool b => if b then "True" else "False"
  | .num n => toString n
  | .str s => "\x27" ++ s ++ "\x27"
  | .arr xs => "[" ++ pyReprItems xs ++ "]"
  | .obj fs => "\x7b" ++ pyReprFields fs ++ "\x7d"

/-- Comma-separated reprs of list items. -/
def pyReprItems : List JVal → String
  | [] => ""
  | [x] => pyRepr x
  | x :: rest => pyRepr x ++ ", " ++ pyReprItems rest

/-- Comma-separated reprs of dict fields. -/
def pyReprFields : List (String × JVal) → String
  | [] => ""
  | [kv] => "\x27" ++ kv.1 ++ "\x27: " ++ pyRepr kv.2
  | kv :: rest => "\x27" ++ kv.1 ++ "\x27: " ++ pyRepr kv.2 ++ ", " ++ pyReprFields rest

end

/-- Python `str(v)`. -/
def pyStr : JVal → String
  | .str s => s
  | v => pyRepr v

/-- Python `a or b` for already-evaluated operands: `a` when truthy, else `b`. -/
def pyOrJ (a b : JVal) : JVal := if a.truthy then a else b

/-- Python dict assignment `d[k] = v`: overwrite the first binding of `k`
in place, else append. -/
def objInsert : List (String × JVal) → String → JVal → List (String × JVal)
  | [], k, v => [(k, v)]
  | (k1, v1) :: rest, k, v =>
      if k1 = k then (k1, v) :: rest else (k1, v1) :: objInsert rest k v

/-- Whitespace for Python `str.strip()`. -/
def pyIsSpace (c : Char) : Bool :=
  c = ' ' || c = '\t' || c = '\n' || c = '\r' || c = '\x0b' || c = '\x0c'

/-- Trim whitespace from both ends of a character list (`str.strip()`). -/
def trimChars (cs : List Char) : List Char :=
  ((cs.dropWhile pyIsSpace).reverse.dropWhile pyIsSpace).reverse

/-- Python `s.strip()`. -/
def pyStrip (s : String) : String := String.mk (trimChars s.data)

/-- Scan the body of a candidate tag for its closing `>`: a `>` closes it,
a `<` aborts the match (the regex body is `[^<]+?`). -/
def tagEnd : List Char → Option (List Char)
  | [] => none
  | c :: rest => if c = '>' then some rest else if c = '<' then none else tagEnd rest

/-- After a `<`: the regex `<[^<]+?>` needs at least one non-`<` body
character before the closing `>`; returns the remainder after the match. -/
def tagMatch : List Char → Option (List Char)
  | [] => none
  | c :: rest => if c = '<' then none else tagEnd rest

/-- `re.sub("<[^<]+?>", "", s)`, structurally recursive on a fuel bound:
each step consumes at least one character, so fuel `length + 1` never runs
out and the zero-fuel branch is unreachable. -/
def stripTagsFuel : Nat → List Char → List Char
  | 0, cs => cs
  | _ + 1, [] => []
  | n + 1, c :: rest =>
      if c = '<' then
        match tagMatch rest with
        | some rest2 => stripTagsFuel n rest2
        | none => c :: stripTagsFuel n rest
      else c :: stripTagsFuel n rest

/-- Drop each leftmost non-overlapping match of `<[^<]+?>`. -/
def stripTagsAux (cs : List Char) : List Char := stripTagsFuel (cs.length + 1) cs

/-- The pure core of `remove_html_tags` (line 104): strip the tag regex,
then strip surrounding whitespace. -/
def stripHtml (s : String) : String := String.mk (trimChars (stripTagsAux s.data))

/-- `remove_html_tags(v)` (line 104): `re.sub("<[^<]+?>", "", v or "").strip()`.
A truthy non-string argument makes `re.sub` raise TypeError. -/
def remove_html_tags (v : JVal) : Except String String :=
  match (if v.truthy then v else .str "") with
  | .str s => .ok (stripHtml s)
  | _ => .error "TypeError: expected string or bytes-like object"

example : stripHtml "<b>hi</b> there" = "hi there" := by decide
example : stripHtml "  a < b > c " = "a  c" := by decide
example : stripHtml "<>" = "<>" := by decide

/-!
## The effective `transform_json_for_submission` (line 855)

The later of the two definitions; it shadows the first at import time, so it
is the one `process_one_task` (and, through a TypeError, `process_one_task_full`)
calls.  Per question, `q.get("id")` and `q.get("type")` run OUTSIDE the
`try`, the branch dispatch inside; `except` replaces the answer by `{}`.
-/

/-- `[s.get("value") for s in opts["sentences"]]` (line 879): raises on a
non-dict element. -/
def v2_sentence_values : List JVal → Except String (List JVal)
  | [] => .ok []
  | it :: rest => do
      let v ← it.dget "value"
      let vs ← v2_sentence_values rest
      .ok (v :: vs)

/-- `[item.get("value") for idx, item in enumerate(phrase) if idx % 2 == 1]`
(line 883): the value field of the items at odd 0-indexed positions; raises
on a non-dict item at an odd position. -/
def v2_fill_words_vals : Nat → List JVal → Except String (List JVal)
  | _, [] => .ok []
  | i, it :: rest =>
      if i % 2 = 1 then do
        let v ← it.dget "value"
        let vs ← v2_fill_words_vals (i + 1) rest
        .ok (v :: vs)
      else v2_fill_words_vals (i + 1) rest

/-- `[o for o in opts if o.get("correct")]` (line 900): options with a truthy
correct flag; raises on a non-dict option. -/
def v2_correct_filter : List JVal → Except String (List JVal)
  | [] => .ok []
  | o :: rest => do
      let c ← o.dget "correct"
      let cs ← v2_correct_filter rest
      .ok (if c.truthy then o :: cs else cs)

/-- The default branch's dict comprehension (lines 911-915):
`{k: (v.get("answer") if isinstance(v, dict) else False) for k, v in opts.items()}`. -/
def v2_default_obj (ofs : List (String × JVal)) : List (String × JVal) :=
  ofs.map fun kv =>
    (kv.1, match kv.2 with
           | .obj vf => jGetD vf "answer"
           | _ => .bool false)

/-- The multiple-choice branch of the effective definition (lines 898-908):
the answer is the singleton map `{str(id): True}` for the first option with
a truthy correct flag, else the first option, else `{}`; non-list options
yield `{}`. -/
def v2_multiple_choice (opts : JVal) : Except String JVal :=
  match opts with
  | .arr os => do
      let correct ← v2_correct_filter os
      match correct with
      | c0 :: _ => do
          let i ← c0.dget "id"
          .ok (.obj [(pyStr i, .bool true)])
      | [] =>
          match os with
          | o0 :: _ => do
              let i ← o0.dget "id"
              .ok (.obj [(pyStr i, .bool true)])
          | [] => .ok (.obj [])
  | _ => .ok (.obj [])

/-- The per-type dispatch inside the `try` of the effective definition
(lines 876-917): computes the value `payload["answer"]` ends with, `.null`
when no branch assigns it; a raise here is caught by the `except`. -/
def v2_branch (q : JVal) (qtype : JVal) : Except String JVal := do
  let opts ← q.dgetOr "options" (.obj [])
  match qtype with
  | .str "order-sentences" =>
      (match opts with
       | .obj ofs =>
           if (jGetD ofs "sentences").truthy then do
             let items ← pyIter (jGetD ofs "sentences")
             let vals ← v2_sentence_values items
             .ok (.arr vals)
           else .ok .null
       | _ => .ok .null)
  | .str "fill-words" => do
      let phrase ← opts.dgetOr "phrase" (.arr [])
      if phrase.truthy then do
        let items ← pyIter phrase
        let vals ← v2_fill_words_vals 0 items
        .ok (.arr vals)
      else .ok (.arr [])
  | .str "text_ai" => do
      let c ← q.dget "comment"
      let clean ← remove_html_tags (pyOrJ c (.str ""))
      .ok (.obj [("0", .str clean)])
  | .str "text" => do
      let c ← q.dget "comment"
      let clean ← remove_html_tags (pyOrJ c (.str ""))
      .ok (.obj [("0", .str clean)])
  | .str "essay" => do
      let c ← q.dget "comment"
      let clean ← remove_html_tags (pyOrJ c (.str ""))
      .ok (.obj [("0", .str clean)])
  | .str "fill-letters" => do
      let b ← pyContains opts "answer"
      if b then opts.dget "answer" else .ok .null
  | .str "cloud" => do
      let v ← opts.dget "ids"
      if v.truthy then opts.dget "ids" else .ok .null
  | .str "multiple_choice" => v2_multiple_choice opts
  | .str "multiple-choice" => v2_multiple_choice opts
  | .str "single_choice" => v2_multiple_choice opts
  | _ =>
      (match opts with
       | .obj ofs => .ok (.obj (v2_default_obj ofs))
       | _ => .ok (.obj []))

/-- One iteration of the loop over questions (lines 870-923): `q.get("id")`
and `q.get("type")` run outside the `try` (a non-dict question propagates),
the dispatch inside it, the `except` replaces the answer with `{}`; then
`novo["answers"][str(qid)] = payload`. -/
def v2_question_step (acc : List (String × JVal)) (q : JVal) :
    Except String (List (String × JVal)) := do
  let qid ← q.dget "id"
  let qtype ← q.dget "type"
  let ans := match v2_branch q qtype with
             | .ok a => a
             | .error _ => .obj []
  .ok (objInsert acc (pyStr qid)
        (.obj [("question_id", qid), ("question_type", qtype), ("answer", ans)]))

/-- The loop of the effective definition over all questions. -/
def v2_loop : List JVal → List (String × JVal) → Except String (List (String × JVal))
  | [], acc => .ok acc
  | q :: rest, acc => do
      let acc2 ← v2_question_step acc q
      v2_loop rest acc2

/-- The effective `transform_json_for_submission` (line 855): raises
ValueError when the task is falsy or has no "questions" key, else builds
`{accessed_on, executed_on, answers}`.  `now` stands for `now_iso()`. -/
def transform_json_for_submission (now : String) (task_json : JVal) :
    Except String JVal := do
  if !task_json.truthy then
    .error "ValueError: Estrutura invalida de tarefa"
  else do
    let hasQ ← pyContains task_json "questions"
    if !hasQ then
      .error "ValueError: Estrutura invalida de tarefa"
    else do
      let acc_on ← task_json.dgetOr "accessed_on" (.str now)
      let exec_on ← task_json.dgetOr "executed_on" (.str now)
      let qsv ← task_json.dgetOr "questions" (.arr [])
      let qs ← pyIter qsv
      let answers ← v2_loop qs []
      .ok (.obj [("accessed_on", acc_on), ("executed_on", exec_on),
                 ("answers", .obj answers)])

/-!
## The first (shadowed) `transform_json_for_submission` (line 211)

Takes `answers_in`; per question the whole body runs inside a `try`, and the
`except` writes an empty-map answer when the local `qid` already exists
(a previous iteration's binding counts, which the state `V1St.lastQid`
tracks); the `str(random.randint(100000, 999999))` fallback key of the
default branch is the oracle `rnd6` applied to a call counter.
-/

/-- `q.get("id") or q.get("question_id") or q.get("qid")` (line 249),
short-circuiting like Python `or`. -/
def v1_qid (q : JVal) : Except String JVal := do
  let a ← q.dget "id"
  if a.truthy then .ok a
  else do
    let b ← q.dget "question_id"
    if b.truthy then .ok b else q.dget "qid"

/-- `(s.get("value") if isinstance(s, dict) else s)` (line 271). -/
def v1_sentence_val (s : JVal) : JVal :=
  match s with
  | .obj f => jGetD f "value"
  | x => x

/-- The `elif q.get("sentences"):` arm of the order-sentences branch
(lines 272-273). -/
def v1_sent_fallback (q : JVal) : Except String JVal := do
  let s ← q.dget "sentences"
  if s.truthy then do
    let items ← pyIter s
    .ok (.arr (items.map v1_sentence_val))
  else .ok (.arr [])

/-- Odd-position extraction of the fill-words branch (lines 282-287):
`item.get("value") or item.get("text") or ""` for dict items, `item or ""`
for raw ones. -/
def v1_fill_vals : Nat → List JVal → List JVal
  | _, [] => []
  | i, it :: rest =>
      if i % 2 = 1 then
        (match it with
         | .obj f => pyOrJ (jGetD f "value") (pyOrJ (jGetD f "text") (.str ""))
         | x => pyOrJ x (.str "")) :: v1_fill_vals (i + 1) rest
      else v1_fill_vals (i + 1) rest

/-- `o.get("correct") is True or o.get("correct") == 1` (line 321);
`True == 1` holds in Python, so the test is: the flag is True or 1. -/
def isCorrectV1 (v : JVal) : Bool :=
  match v with
  | .bool b => b
  | .num n => n == 1
  | _ => false

/-- `o.get("id") or o.get("optionId") or o.get("key")` (lines 322, 326):
first truthy field, else the last `get` (possibly None). -/
def choiceChain (f : List (String × JVal)) : JVal :=
  pyOrJ (jGetD f "id") (pyOrJ (jGetD f "optionId") (jGetD f "key"))

/-- The search loop of the list-shaped multiple-choice branch (lines
320-323): chosen id of the first dict option marked correct, else None. -/
def v1_mc_find : List JVal → JVal
  | [] => .null
  | o :: rest =>
      match o with
      | .obj f => if isCorrectV1 (jGetD f "correct") then choiceChain f else v1_mc_find rest
      | _ => v1_mc_find rest

/-- List-shaped multiple-choice (lines 319-326): on no chosen id, fall back
to the first option; `opts[0].get` raises for a non-dict first option. -/
def v1_mc_list (os : List JVal) : Except String JVal :=
  match v1_mc_find os with
  | .null =>
      (match os with
       | [] => .ok .null
       | first :: _ =>
           match first with
           | .obj f => .ok (choiceChain f)
           | _ => .error "AttributeError: object has no attribute get")
  | c => .ok c

/-- The search of the dict-shaped multiple-choice branch (lines 329-332). -/
def v1_mc_obj_find : List (String × JVal) → Option String
  | [] => none
  | (k, v) :: rest =>
      match v with
      | .obj vf => if isCorrectV1 (jGetD vf "correct") then some k else v1_mc_obj_find rest
      | _ => v1_mc_obj_find rest

/-- Dict-shaped multiple-choice (lines 327-336): first correct key, else the
first key, else None. -/
def v1_mc_obj (ofs : List (String × JVal)) : JVal :=
  match v1_mc_obj_find ofs with
  | some k => .str k
  | none => match ofs with
            | [] => .null
            | (k, _) :: _ => .str k

/-- `v.get("answer", False) if isinstance(v, dict) else bool(v)`
(lines 344-348). -/
def v1_default_val (v : JVal) : JVal :=
  match v with
  | .obj vf => (jFind vf "answer").getD (.bool false)
  | x => .bool x.truthy

/-- The default branch for list-shaped options (lines 350-356): skip raw
items; the key is the id/optionId/key chain or a fresh 6-digit random
number (`rnd6` applied to the running call counter). -/
def v1_default_list (rnd6 : Nat → Nat) :
    Nat → List (String × JVal) → List JVal → List (String × JVal) × Nat
  | ctr, acc, [] => (acc, ctr)
  | ctr, acc, o :: rest =>
      match o with
      | .obj f =>
          let kv := choiceChain f
          let kc := if kv.truthy then (pyStr kv, ctr) else (toString (rnd6 ctr), ctr + 1)
          v1_default_list rnd6 kc.2 (objInsert acc kc.1 ((jFind f "answer").getD (.bool false))) rest
      | _ => v1_default_list rnd6 ctr acc rest

/-- The per-type dispatch of the first definition (lines 267-358). -/
def v1_branch (rnd6 : Nat → Nat) (ctr : Nat) (q : JVal) (opts : JVal) (qtype : String) :
    Except String (JVal × Nat) :=
  if qtype = "order-sentences" || qtype = "order_sentences" || qtype = "orderSentences" then
    (match opts with
     | .obj ofs =>
         if (jGetD ofs "sentences").truthy then do
           let items ← pyIter (jGetD ofs "sentences")
           .ok (.arr (items.map v1_sentence_val), ctr)
         else do
           let v ← v1_sent_fallback q
           .ok (v, ctr)
     | _ => do
         let v ← v1_sent_fallback q
         .ok (v, ctr))
  else if qtype = "fill-words" || qtype = "fill_words" || qtype = "fillWords" then do
    let p1 ← opts.dget "phrase"
    let phrase ← (if p1.truthy then .ok p1
                  else do
                    let pq ← q.dget "phrase"
                    .ok (if pq.truthy then pq else .arr []))
    match phrase with
    | .arr items => .ok (.arr (v1_fill_vals 0 items), ctr)
    | _ => .ok (.arr [], ctr)
  else if qtype = "text_ai" || qtype = "text" || qtype = "essay" ||
          qtype = "text-ai" || qtype = "long_text" then do
    let c1 ← q.dget "comment"
    let raw ← (if c1.truthy then .ok c1
               else do
                 let c2 ← q.dget "value"
                 if c2.truthy then .ok c2
                 else do
                   let c3 ← q.dget "text"
                   .ok (if c3.truthy then c3 else .str ""))
    let clean ← remove_html_tags raw
    .ok (.obj [("0", .str clean)], ctr)
  else if qtype = "fill-letters" || qtype = "fill_letters" || qtype = "fillLetters" then
    (match opts with
     | .obj ofs =>
         if (jFind ofs "answer").isSome then .ok (jGetD ofs "answer", ctr)
         else do
           let a ← q.dget "answer"
           .ok ((match a with | .null => .obj [] | x => x), ctr)
     | _ => do
         let a ← q.dget "answer"
         .ok ((match a with | .null => .obj [] | x => x), ctr))
  else if qtype = "cloud" then
    (match opts with
     | .obj ofs =>
         (match jGetD ofs "ids" with
          | .arr ids => .ok (.arr ids, ctr)
          | _ => .ok (.arr [], ctr))
     | _ => .ok (.arr [], ctr))
  else if qtype = "multiple_choice" || qtype = "multiple-choice" ||
          qtype = "single_choice" || qtype = "single-choice" then
    (match opts with
     | .arr os => do
         let c ← v1_mc_list os
         .ok (c, ctr)
     | .obj ofs => .ok (v1_mc_obj ofs, ctr)
     | _ => .ok (.null, ctr))
  else
    (match opts with
     | .obj ofs => .ok (.obj (ofs.map fun kv => (kv.1, v1_default_val kv.2)), ctr)
     | .arr os =>
         let mc := v1_default_list rnd6 ctr [] os
         .ok (.obj mc.1, mc.2)
     | _ => .ok (.obj [], ctr))

/-- The body of the `try` after `qid` is bound (lines 250-362): compute the
stripped type tag, the options, honour a well-formed pre-supplied answer,
else dispatch on the tag; returns the payload dict and the updated random
counter.  An `.error` here is the per-question exception the `except`
catches. -/
def v1_rest (ansIn : JVal) (rnd6 : Nat → Nat) (ctr : Nat) (q : JVal) (qid : JVal) :
    Except String (JVal × Nat) := do
  let t1 ← q.dget "type"
  let t2 ← (if t1.truthy then .ok t1
            else do
              let u ← q.dget "question_type"
              if u.truthy then .ok u
              else do
                let w ← q.dget "kind"
                .ok (if w.truthy then w else .str ""))
  let qtype ← (match t2 with
               | .str s => .ok (pyStrip s)
               | _ => Except.error "AttributeError: object has no attribute strip")
  let opts0 ← q.dget "options"
  let opts := if opts0.truthy then opts0 else .obj []
  let providedAns : Option JVal :=
    match ansIn with
    | .obj afs =>
        (match jFind afs (pyStr qid) with
         | some (.obj pfs) => jFind pfs "answer"
         | _ => none)
    | _ => none
  match providedAns with
  | some a => .ok (.obj [("question_id", qid), ("question_type", .str qtype), ("answer", a)], ctr)
  | none => do
      let ac ← v1_branch rnd6 ctr q opts qtype
      .ok (.obj [("question_id", qid), ("question_type", .str qtype), ("answer", ac.1)], ac.2)

/-- Loop state of the first definition: whether (and with what value) `qid`
is bound in the function's locals, and the number of `random.randint` calls
made so far. -/
structure V1St where
  lastQid : Option JVal
  ctr : Nat

/-- One iteration of the first definition's loop (lines 247-368).  On an
exception inside the `try`: if `qid` is not in `locals()` the question is
skipped; else `out["answers"][str(qid)]` gets an empty-map answer whose
`question_type` is the raw `q.get("type", "")` — a second exception there
(non-dict `q`) propagates out of the whole function. -/
def v1_step (ansIn : JVal) (rnd6 : Nat → Nat) (st : V1St) (acc : List (String × JVal))
    (q : JVal) : Except String (List (String × JVal) × V1St) :=
  match v1_qid q with
  | .error _ =>
      (match st.lastQid with
       | none => .ok (acc, st)
       | some qid0 =>
           match q.dgetOr "type" (.str "") with
           | .ok t =>
               .ok (objInsert acc (pyStr qid0)
                     (.obj [("question_id", qid0), ("question_type", t), ("answer", .obj [])]), st)
           | .error e => .error e)
  | .ok qid =>
      match v1_rest ansIn rnd6 st.ctr q qid with
      | .ok pc => .ok (objInsert acc (pyStr qid) pc.1, ⟨some qid, pc.2⟩)
      | .error _ =>
          match q.dgetOr "type" (.str "") with
          | .ok t =>
              .ok (objInsert acc (pyStr qid)
                    (.obj [("question_id", qid), ("question_type", t), ("answer", .obj [])]),
                   ⟨some qid, st.ctr⟩)
          | .error e => .error e

/-- The loop of the first definition over all questions. -/
def v1_loop (ansIn : JVal) (rnd6 : Nat → Nat) :
    List JVal → V1St → List (String × JVal) → Except String (List (String × JVal))
  | [], _, acc => .ok acc
  | q :: rest, st, acc =>
      match v1_step ansIn rnd6 st acc q with
      | .ok r => v1_loop ansIn rnd6 rest r.2 r.1
      | .error e => .error e

/-- The first `transform_json_for_submission` (line 211), shadowed at import
time by the later definition.  A falsy task yields empty answers; questions
come from `questions`, `data.questions` or `questions_list` (the `or` chain
short-circuits); `answers_in or {}` recovers a None `answers_in`. -/
def transform_json_for_submission_v1 (now : String) (task_details : JVal)
    (answers_in : JVal) (rnd6 : Nat → Nat) : Except String JVal := do
  if !task_details.truthy then
    .ok (.obj [("accessed_on", .str now), ("executed_on", .str now), ("answers", .obj [])])
  else do
    let q1 ← task_details.dget "questions"
    let questions ← (if q1.truthy then .ok q1
                     else do
                       let dta ← task_details.dgetOr "data" (.obj [])
                       let q2 ← dta.dget "questions"
                       if q2.truthy then .ok q2
                       else do
                         let q3 ← task_details.dget "questions_list"
                         .ok (if q3.truthy then q3 else .arr []))
    let acc_on ← task_details.dgetOr "accessed_on" (.str now)
    let exec_on ← task_details.dgetOr "executed_on" (.str now)
    let ansIn := if answers_in.truthy then answers_in else .obj []
    let qs ← pyIter questions
    let answers ← v1_loop ansIn rnd6 qs ⟨none, 0⟩ []
    .ok (.obj [("accessed_on", acc_on), ("executed_on", exec_on), ("answers", .obj answers)])

/-- The runtime semantics of the call at line 535,
`transform_json_for_submission(details, answers_in=task_obj.get("answers", {}))`:
the effective definition (line 855) takes a single parameter, so Python
raises TypeError at the call, before any body runs. -/
def call_transform_with_answers (_now : String) (_task : JVal) (_answers_in : JVal) :
    Except String JVal :=
  .error "TypeError: transform_json_for_submission() got an unexpected keyword argument answers_in"

/-!
## Task processor, pacing and batch runner

Remote calls are oracle parameters: `fetchD task_id` models
`fetch_task_details`/the GET of `/tms/task/{id}` and `submitA task_id
payload` the POST of `/tms/task/{id}/answer`; an `.error` is the exception
(HTTPError or otherwise) the call raises.  `rnd a b` models
`random.randint(a, b)`; `py_randint` adds the ValueError an empty range
raises.  `time.sleep` is a no-op for the embedding; the slept amount is the
second component of the pacing result.
-/

/-- `random.randint(a, b)`: ValueError when the range is empty, else the
oracle's draw. -/
def py_randint (rnd : Int → Int → Int) (a b : Int) : Except String Int :=
  if b < a then .error "ValueError: empty range for randrange" else .ok (rnd a b)

/-- `random_delay(min_sec, max_sec)` (line 127): a bare `random.randint`. -/
def random_delay (rnd : Int → Int → Int) (min_sec max_sec : Int) : Except String Int :=
  py_randint rnd min_sec max_sec

/-- The pacing block of `process_one_task_full` (lines 549-556):
`sec_min = max(1, time_min) * 60`, `sec_max = max(sec_min, time_max) * 60`
(note: `sec_min` is already in seconds when it re-enters the `max`),
`simulated_delay = randint(sec_min, sec_max)`,
`effective_delay = min(simulated_delay, 5)`.
Returns (simulated delay, seconds actually slept). -/
def pacing_full (rnd : Int → Int → Int) (time_min time_max : Int) :
    Except String (Int × Int) := do
  let sec_min := (max 1 time_min) * 60
  let sec_max := (max sec_min time_max) * 60
  let simulated ← py_randint rnd sec_min sec_max
  .ok (simulated, min simulated 5)

/-- The pacing block of `process_one_task` (lines 982-987):
`sec_min = max(1, time_min) * 60`, `sec_max = max(1, time_max) * 60`,
`processing_time = random_delay(sec_min, sec_max)`, sleep
`min(processing_time, 5)`.  Returns (simulated delay, seconds slept). -/
def pacing_v2 (rnd : Int → Int → Int) (time_min time_max : Int) :
    Except String (Int × Int) := do
  let sec_min := (max 1 time_min) * 60
  let sec_max := (max 1 time_max) * 60
  let pt ← random_delay rnd sec_min sec_max
  .ok (pt, min pt 5)

/-- `payload_final` of `process_one_task` (lines 974-980): copies the three
transform fields (`.get`, None when absent) and sets
`final = not is_draft`, `status = "draft" if is_draft else "submitted"`. -/
def payload_final_of (sp : JVal) (is_draft : Bool) : Except String JVal := do
  let a ← sp.dget "accessed_on"
  let e ← sp.dget "executed_on"
  let ans ← sp.dget "answers"
  .ok (.obj [("accessed_on", a), ("executed_on", e), ("answers", ans),
             ("final", .bool (!is_draft)),
             ("status", .str (if is_draft then "draft" else "submitted"))])

/-- `payload_final` of `process_one_task_full` (lines 541-547): same fields,
but the `.get` calls carry defaults (`now_iso()`, `{}`). -/
def payload_final_full (sp : JVal) (midTs : String) (is_draft : Bool) :
    Except String JVal := do
  let a ← sp.dgetOr "accessed_on" (.str midTs)
  let e ← sp.dgetOr "executed_on" (.str midTs)
  let ans ← sp.dgetOr "answers" (.obj [])
  .ok (.obj [("accessed_on", a), ("executed_on", e), ("answers", ans),
             ("final", .bool (!is_draft)),
             ("status", .str (if is_draft then "draft" else "submitted"))])

/-- An Option String as the Python value None-or-string. -/
def optStr : Option String → JVal
  | some s => .str s
  | none => .null

/-- An Option JVal as the Python value None-or-value. -/
def optJ : Option JVal → JVal
  | some v => v
  | none => .null

/-- The `result` dict of `process_one_task_full` (lines 513-521) after its
mutations: key order is the initial insertion order, `duration_sec` stays
None (lines 573-578). -/
def mkFullOutcome (startTs endTs : String) (tid : JVal) (succ : Bool)
    (err : Option String) (resp : Option JVal) : JVal :=
  .obj [("success", .bool succ), ("task_id", tid), ("start", .str startTs),
        ("end", .str endTs), ("duration_sec", .null), ("error", optStr err),
        ("response", optJ resp)]

/-- `process_one_task_full` (line 502).  The whole body sits in one
`try/except/finally` whose handlers only fill `result`, so the function
always returns an outcome.  At runtime the transform step is the
TypeError-raising call of `call_transform_with_answers`, so the remaining
steps of the `try` are dead code. -/
def process_one_task_full (fetchD : JVal → Except String JVal)
    (submitA : JVal → JVal → Except String JVal) (rnd : Int → Int → Int)
    (startTs midTs endTs : String) (task_obj : JVal)
    (time_min time_max : Int) (is_draft : Bool) : JVal :=
  match task_obj with
  | .obj fs =>
      let task_id := pyOrJ (jGetD fs "id") (pyOrJ (jGetD fs "task_id") (jGetD fs "_id"))
      if !task_id.truthy then
        mkFullOutcome startTs endTs task_id false (some "task sem id") none
      else
        let attempt : Except String JVal := do
          let details ← fetchD task_id
          let submission_struct ←
            call_transform_with_answers midTs details ((jFind fs "answers").getD (.obj []))
          let pf ← payload_final_full submission_struct midTs is_draft
          let _pace ← pacing_full rnd time_min time_max
          submitA task_id pf
        match attempt with
        | .ok resp => mkFullOutcome startTs endTs task_id true none (some resp)
        | .error e => mkFullOutcome startTs endTs task_id false (some e) none
  | _ =>
      mkFullOutcome startTs endTs .null false
        (some "AttributeError: object has no attribute get") none

/-- `process_one_task` (line 948).  The except handlers build their return
dict with the local `task_id`; when `task_obj.get("id")` itself raises
(non-dict task), `task_id` was never bound and the handler raises
UnboundLocalError, which propagates to the caller — hence the result type
`Except String JVal`. -/
def process_one_task (fetchD : JVal → Except String JVal)
    (submitA : JVal → JVal → Except String JVal) (rnd : Int → Int → Int)
    (now : String) (task_obj : JVal) (time_min time_max : Int) (is_draft : Bool) :
    Except String JVal :=
  match task_obj with
  | .obj fs =>
      let task_id := jGetD fs "id"
      if !task_id.truthy then
        .ok (.obj [("success", .bool false), ("message", .str "task sem id"),
                   ("task_id", .null)])
      else
        let attempt : Except String JVal := do
          let details ← fetchD task_id
          let sp ← transform_json_for_submission now details
          let pf ← payload_final_of sp is_draft
          let _pace ← pacing_v2 rnd time_min time_max
          submitA task_id pf
        match attempt with
        | .ok resp =>
            .ok (.obj [("success", .bool true), ("task_id", task_id), ("result", resp)])
        | .error e =>
            .ok (.obj [("success", .bool false), ("message", .str e), ("task_id", task_id)])
  | _ => .error "UnboundLocalError: local variable task_id referenced before assignment"

/-- The fan-out/fan-in of `complete_route` (lines 1203-1212), modelled
sequentially: one `process_one_task` call per task; `f.result()` re-raises
an exception the worker raised and the `except` around it appends
`{"success": False, "message": str(e)}` instead.  `as_completed` yields
some completion order; the embedding fixes the input order. -/
def complete_route_results (fetchD : JVal → Except String JVal)
    (submitA : JVal → JVal → Except String JVal) (rnd : Int → Int → Int)
    (now : String) (tasks : List JVal) (time_min time_max : Int) (is_draft : Bool) :
    List JVal :=
  tasks.map fun t =>
    match process_one_task fetchD submitA rnd now t time_min time_max is_draft with
    | .ok r => r
    | .error e => .obj [("success", .bool false), ("message", .str e)]

/-- `max_workers = min(6, max(1, len(tasks)))` (lines 806, 1204). -/
def batch_max_workers (taskCount : Nat) : Nat := min 6 (max 1 taskCount)

/-!
## Test doubles

Deterministic stand-ins for the remote service, in the spirit of `MockMode`
(line 138): the fetched detail is a well-formed task and the submit call
fails exactly on a chosen set of ids.
-/

/-- A minimal well-formed task detail: a questions list. -/
def mockDetails : JVal := .obj [("questions", .arr [])]

/-- Fetch double: always returns `mockDetails`. -/
def mockFetch : JVal → Except String JVal := fun _ => .ok mockDetails

/-- Submit double: fails exactly for ids in `bad`. -/
def mockSubmit (bad : Int → Bool) : JVal → JVal → Except String JVal :=
  fun tid _ =>
    match tid with
    | .num k => if bad k then .error "mocked submit failure" else .ok (.str "ok-resp")
    | _ => .error "mocked submit failure"

/-!
## Claim-side helpers
-/

/-- The answer value recorded for question key `k` in a transform result. -/
def answerOf (out : JVal) (k : String) : Option JVal :=
  match jLookup out "answers" with
  | some (.obj ansFs) =>
      (match jFind ansFs k with
       | some p => jLookup p "answer"
       | none => none)
  | _ => none

/-- The items of a list at odd 0-indexed positions, stated the way the spec
states it (for comparison against the code's extraction). -/
def oddFromIndex : Nat → List α → List α
  | _, [] => []
  | i, a :: rest =>
      if i % 2 = 1 then a :: oddFromIndex (i + 1) rest else oddFromIndex (i + 1) rest

/-- Items at odd 0-indexed positions. -/
def oddIndexItems (xs : List α) : List α := oddFromIndex 0 xs

/-!
## Shared lemmas
-/

theorem jFind_objInsert_self (fs : List (String × JVal)) (k : String) (v : JVal) :
    jFind (objInsert fs k v) k = some v := by
  induction fs with
  | nil => simp [objInsert, jFind]
  | cons kv rest ih =>
      obtain ⟨k1, v1⟩ := kv
      by_cases h : k1 = k <;> simp [objInsert, jFind, h, ih]

theorem jFind_objInsert_isSome (fs : List (String × JVal)) (k k2 : String) (v : JVal)
    (h : (jFind fs k2).isSome = true) :
    (jFind (objInsert fs k v) k2).isSome = true := by
  induction fs with
  | nil => simp [jFind] at h
  | cons kv rest ih =>
      obtain ⟨k1, v1⟩ := kv
      by_cases h1 : k1 = k
      · by_cases h2 : k1 = k2 <;> simp_all [objInsert, jFind]
      · by_cases h2 : k1 = k2 <;> simp_all [objInsert, jFind]

theorem objInsert_keys_congr (fs1 fs2 : List (String × JVal)) (k : String) (v1 v2 : JVal)
    (h : fs1.map Prod.fst = fs2.map Prod.fst) :
    (objInsert fs1 k v1).map Prod.fst = (objInsert fs2 k v2).map Prod.fst := by
  induction fs1 generalizing fs2 with
  | nil =>
      cases fs2 with
      | nil => simp [objInsert]
      | cons kv rest => simp at h
  | cons kv1 rest1 ih =>
      cases fs2 with
      | nil => simp at h
      | cons kv2 rest2 =>
          obtain ⟨ka, va⟩ := kv1
          obtain ⟨kb, vb⟩ := kv2
          simp only [List.map_cons, List.cons.injEq] at h
          obtain ⟨hk, hr⟩ := h
          subst hk
          by_cases he : ka = k
          · simp [objInsert, he, hr]
          · simp [objInsert, if_neg he, ih rest2 hr]

theorem ok_bind (a : α) (f : α → Except String β) :
    (do let x ← Except.ok a; f x : Except String β) = f a := rfl

theorem v2_correct_filter_map_obj (os : List (List (String × JVal))) :
    v2_correct_filter (os.map JVal.obj)
      = .ok ((os.filter fun o => (jGetD o "correct").truthy).map JVal.obj) := by
  induction os with
  | nil => simp [v2_correct_filter]
  | cons o rest ih =>
      by_cases h : (jGetD o "correct").truthy
        <;> simp [v2_correct_filter, JVal.dget, ih, h, ok_bind, List.filter_cons]

theorem v2_fill_words_vals_map_obj (ph : List (List (String × JVal))) (i : Nat) :
    v2_fill_words_vals i (ph.map JVal.obj)
      = .ok ((oddFromIndex i ph).map fun f => jGetD f "value") := by
  induction ph generalizing i with
  | nil => simp [v2_fill_words_vals, oddFromIndex]
  | cons f rest ih =>
      by_cases h : i % 2 = 1
        <;> simp [v2_fill_words_vals, oddFromIndex, h, JVal.dget, ih, ok_bind]

theorem oddFromIndex_length (xs : List α) :
    ∀ i, (oddFromIndex i xs).length
      = (if i % 2 = 1 then (xs.length + 1) / 2 else xs.length / 2) := by
  induction xs with
  | nil => intro i; simp [oddFromIndex]
  | cons a rest ih =>
      intro i
      by_cases h : i % 2 = 1
      · have h2 : ¬ (i + 1) % 2 = 1 := by omega
        simp only [oddFromIndex, if_pos h, List.length_cons, ih (i + 1), if_neg h2, if_pos h]
        try omega
      · have h2 : (i + 1) % 2 = 1 := by omega
        simp only [oddFromIndex, if_neg h, List.length_cons, ih (i + 1), if_pos h2, if_neg h]
        try omega

theorem oddIndexItems_length (xs : List α) :
    (oddIndexItems xs).length = xs.length / 2 := by
  have := oddFromIndex_length xs 0
  simpa [oddIndexItems] using this

theorem error_bind (e : String) (f : α → Except String β) :
    (do let x ← Except.error e; f x : Except String β) = .error e := rfl

theorem v2_branch_mc_unfold (q : JVal) :
    v2_branch q (.str "multiple_choice")
      = (do let opts ← q.dgetOr "options" (.obj [])
            v2_multiple_choice opts) := rfl

theorem v2_branch_fw_unfold (q : JVal) :
    v2_branch q (.str "fill-words")
      = (do let opts ← q.dgetOr "options" (.obj [])
            let phrase ← opts.dgetOr "phrase" (.arr [])
            if phrase.truthy then do
              let items ← pyIter phrase
              let vals ← v2_fill_words_vals 0 items
              Except.ok (.arr vals)
            else Except.ok (.arr [])) := rfl

theorem v2_branch_text (q : JVal) (tag : String)
    (h : tag = "text_ai" ∨ tag = "text" ∨ tag = "essay") :
    v2_branch q (.str tag)
      = (do let _opts ← q.dgetOr "options" (.obj [])
            let c ← q.dget "comment"
            let clean ← remove_html_tags (pyOrJ c (.str ""))
            Except.ok (.obj [("0", .str clean)])) := by
  rcases h with h | h | h <;> subst h <;> rfl

/-- On a list of dict options, the effective multiple-choice answer is the
claim-shaped value: the singleton map at the first truthy-correct option,
else at the first option, else the empty map. -/
theorem v2_multiple_choice_obj_list (os : List (List (String × JVal))) :
    v2_multiple_choice (.arr (os.map JVal.obj))
      = .ok (match os.filter (fun o => (jGetD o "correct").truthy) with
             | o :: _ => .obj [(pyStr (jGetD o "id"), .bool true)]
             | [] => match os with
                     | [] => .obj []
                     | o :: _ => .obj [(pyStr (jGetD o "id"), .bool true)]) := by
  show (do let correct ← v2_correct_filter (os.map JVal.obj)
           match correct with
           | c0 :: _ => do
               let i ← c0.dget "id"
               Except.ok (JVal.obj [(pyStr i, .bool true)])
           | [] =>
               match os.map JVal.obj with
               | o0 :: _ => do
                   let i ← o0.dget "id"
                   Except.ok (JVal.obj [(pyStr i, .bool true)])
               | [] => Except.ok (JVal.obj []) : Except String JVal) = _
  rw [v2_correct_filter_map_obj, ok_bind]
  cases hf : os.filter (fun o => (jGetD o "correct").truthy) with
  | cons c cs => simp [JVal.dget, ok_bind, jGetD]
  | nil =>
      cases os with
      | nil => simp
      | cons o rest => simp [JVal.dget, ok_bind, jGetD]

theorem remove_html_tags_str (c : String) :
    remove_html_tags (.str c) = .ok (stripHtml c) := by
  by_cases h : c = "" <;> simp [remove_html_tags, JVal.truthy, h]

theorem pyOrJ_str_empty (c : String) : pyOrJ (.str c) (.str "") = .str c := by
  by_cases h : c = "" <;> simp [pyOrJ, JVal.truthy, h]

theorem jLookup_mkFullOutcome_success (a b : String) (tid : JVal) (succ : Bool)
    (err : Option String) (resp : Option JVal) :
    jLookup (mkFullOutcome a b tid succ err resp) "success" = some (.bool succ) := rfl

theorem jLookup_mkFullOutcome_error (a b : String) (tid : JVal) (succ : Bool)
    (err : Option String) (resp : Option JVal) :
    jLookup (mkFullOutcome a b tid succ err resp) "error" = some (optStr err) := rfl

/-- A dict question with a truthy id never breaks the first definition's
loop: whatever `v1_rest` does, the iteration inserts an entry at
`str(q["id"])`. -/
theorem v1_step_obj (ansIn : JVal) (rnd6 : Nat → Nat) (st : V1St)
    (acc : List (String × JVal)) (qf : List (String × JVal))
    (hid : (jGetD qf "id").truthy = true) :
    ∃ p st2, v1_step ansIn rnd6 st acc (.obj qf)
      = .ok (objInsert acc (pyStr (jGetD qf "id")) p, st2) := by
  have hq : v1_qid (.obj qf) = .ok (jGetD qf "id") := by
    simp [v1_qid, JVal.dget, hid, ok_bind]
  simp only [v1_step, hq]
  cases hr : v1_rest ansIn rnd6 st.ctr (.obj qf) (jGetD qf "id") with
  | ok pc => exact ⟨pc.1, _, rfl⟩
  | error e => exact ⟨_, _, rfl⟩

/-- A dict question always yields one inserted entry at `str(q.get("id"))`
in the effective definition's loop. -/
theorem v2_step_obj (acc : List (String × JVal)) (qf : List (String × JVal)) :
    ∃ p, v2_question_step acc (.obj qf)
      = .ok (objInsert acc (pyStr (jGetD qf "id")) p) := ⟨_, rfl⟩

/-- The effective definition's loop never raises over dict questions, keeps
every key of the accumulator and records an entry for every question id. -/
theorem v2_loop_obj_ok (qs : List (List (String × JVal))) :
    ∀ acc, ∃ out, v2_loop (qs.map JVal.obj) acc = .ok out ∧
      (∀ k, (jFind acc k).isSome = true → (jFind out k).isSome = true) ∧
      (∀ q ∈ qs, (jFind out (pyStr (jGetD q "id"))).isSome = true) := by
  induction qs with
  | nil => exact fun acc => ⟨acc, rfl, fun _ h => h, by simp⟩
  | cons q rest ih =>
      intro acc
      obtain ⟨p, hstep⟩ := v2_step_obj acc q
      obtain ⟨out, hrun, hpres, hmem⟩ := ih (objInsert acc (pyStr (jGetD q "id")) p)
      refine ⟨out, ?_, ?_, ?_⟩
      · simp [v2_loop, hstep, hrun, ok_bind]
      · intro k hk
        exact hpres k (jFind_objInsert_isSome acc (pyStr (jGetD q "id")) k p hk)
      · intro q2 hq2
        rcases List.mem_cons.mp hq2 with h | h
        · subst h
          exact hpres _ (by simp [jFind_objInsert_self])
        · exact hmem q2 h

/-- Evaluation of the effective transform on a dict task whose questions
are a list of dicts: it returns normally and every question id gets an
answers entry. -/
theorem transform_eval (now : String) (fs : List (String × JVal))
    (qs : List (List (String × JVal)))
    (hq : jFind fs "questions" = some (.arr (qs.map JVal.obj))) :
    ∃ answers, transform_json_for_submission now (.obj fs)
      = .ok (.obj [("accessed_on", (jFind fs "accessed_on").getD (.str now)),
                   ("executed_on", (jFind fs "executed_on").getD (.str now)),
                   ("answers", .obj answers)]) ∧
      (∀ q ∈ qs, (jFind answers (pyStr (jGetD q "id"))).isSome = true) := by
  obtain ⟨out, hrun, _, hmem⟩ := v2_loop_obj_ok qs []
  refine ⟨out, ?_, hmem⟩
  cases fs with
  | nil => simp [jFind] at hq
  | cons kv rest =>
      simp [transform_json_for_submission, JVal.truthy, pyContains, hq, JVal.dgetOr,
        pyIter, hrun, ok_bind]

/-- Over dict questions with truthy ids, the two definitions' loops both
return normally and produce answers maps with the same key sequence. -/
theorem loops_keys_eq (ansIn : JVal) (rnd6 : Nat → Nat) :
    ∀ (qs : List (List (String × JVal))),
      (∀ q ∈ qs, (jGetD q "id").truthy = true) →
    ∀ (st : V1St) (acc1 acc2 : List (String × JVal)),
      acc1.map Prod.fst = acc2.map Prod.fst →
    ∃ out1 out2, v1_loop ansIn rnd6 (qs.map JVal.obj) st acc1 = .ok out1 ∧
      v2_loop (qs.map JVal.obj) acc2 = .ok out2 ∧
      out1.map Prod.fst = out2.map Prod.fst := by
  intro qs
  induction qs with
  | nil => exact fun _ st a1 a2 h => ⟨a1, a2, rfl, rfl, h⟩
  | cons q rest ih =>
      intro hid st a1 a2 h
      obtain ⟨p1, st2, h1⟩ := v1_step_obj ansIn rnd6 st a1 q (hid q (by simp))
      obtain ⟨p2, h2⟩ := v2_step_obj a2 q
      have hk2 := objInsert_keys_congr a1 a2 (pyStr (jGetD q "id")) p1 p2 h
      obtain ⟨o1, o2, e1, e2, ekeys⟩ :=
        ih (fun q2 hq2 => hid q2 (List.mem_cons_of_mem q hq2)) st2 _ _ hk2
      refine ⟨o1, o2, ?_, ?_, ekeys⟩
      · simp [v1_loop, h1, e1]
      · simp [v2_loop, h2, e2, ok_bind]

/-- `process_one_task` against the test doubles: one well-formed task whose
submit call fails exactly when `bad` holds of its id. -/
theorem process_one_task_mock (bad : Int → Bool) (rnd : Int → Int → Int) (now : String)
    (d : Bool) (k : Int) (hk : k ≠ 0) :
    process_one_task mockFetch (mockSubmit bad) rnd now (.obj [("id", .num k)]) 1 3 d
      = .ok (if bad k
             then .obj [("success", .bool false),
                        ("message", .str "mocked submit failure"), ("task_id", .num k)]
             else .obj [("success", .bool true), ("task_id", .num k),
                        ("result", .str "ok-resp")]) := by
  cases hb : bad k <;>
    simp [process_one_task, jGetD, jFind, JVal.truthy, hk, mockFetch, mockSubmit,
      mockDetails, transform_json_for_submission, pyContains, pyIter, v2_loop,
      JVal.dgetOr, payload_final_of, JVal.dget, pacing_v2, random_delay, py_randint,
      ok_bind, hb]

/-- The batch model against the test doubles, for any id list. -/
theorem complete_route_mock_eval (bad : Int → Bool) (rnd : Int → Int → Int)
    (now : String) (d : Bool) :
    ∀ (ids : List Int), (∀ k ∈ ids, k ≠ 0) →
    complete_route_results mockFetch (mockSubmit bad) rnd now
        (ids.map fun k => .obj [("id", .num k)]) 1 3 d
      = ids.map (fun k => if bad k
          then .obj [("success", .bool false),
                     ("message", .str "mocked submit failure"), ("task_id", .num k)]
          else .obj [("success", .bool true), ("task_id", .num k),
                     ("result", .str "ok-resp")]) := by
  intro ids
  induction ids with
  | nil => intro _; rfl
  | cons k ks ih =>
      intro h
      have hk := h k (List.mem_cons_self k ks)
      have hrest := ih fun x hx => h x (List.mem_cons_of_mem k hx)
      simp only [complete_route_results, List.map_cons] at hrest ⊢
      rw [process_one_task_mock bad rnd now d k hk]
      simp only [hrest]

/-!
## Claim theorems
-/

/-- C1 (counterexample): at the mock's own multiple-choice question (options
`[{id: "A", correct: true}, {id: "B"}]`), the effective synthesizer's answer
is the map `{"A": true}`, not the scalar id `"A"` the claim states. -/
theorem claim1_counterexample :
    ∃ out, transform_json_for_submission "t"
        (.obj [("questions", .arr [.obj [("id", .num 1), ("type", .str "multiple_choice"),
          ("options", .arr [.obj [("id", .str "A"), ("correct", .bool true)],
                            .obj [("id", .str "B")]])]])]) = .ok out ∧
      answerOf out "1" = some (.obj [("A", .bool true)]) ∧
      answerOf out "1" ≠ some (.str "A") := by
  refine ⟨_, rfl, rfl, ?_⟩
  intro hc
  have h2 : some (JVal.obj [("A", JVal.bool true)]) = some (JVal.str "A") := hc
  injection h2 with h3
  exact JVal.noConfusion h3

/-- C1 (amended): for a `multiple_choice` question whose options are a list
of dicts, the effective synthesizer's answer is the singleton map
`{str(id): true}` keyed by the id of the first option whose correct flag is
truthy (even if several are marked correct); if none is marked, the first
option in list order; `{}` for an empty list.  (The claim's scalar id is
what the shadowed first definition returned.) -/
theorem claim1_amended (now : String) (qid : JVal) (os : List (List (String × JVal))) :
    ∃ out,
      transform_json_for_submission now
        (.obj [("questions", .arr [.obj [("id", qid), ("type", .str "multiple_choice"),
          ("options", .arr (os.map JVal.obj))]])]) = .ok out ∧
      answerOf out (pyStr qid) =
        some (match (os.filter fun o => (jGetD o "correct").truthy) with
              | o :: _ => .obj [(pyStr (jGetD o "id"), .bool true)]
              | [] => match os with
                      | [] => .obj []
                      | o :: _ => .obj [(pyStr (jGetD o "id"), .bool true)]) := by
  refine ⟨_, rfl, ?_⟩
  simp [transform_json_for_submission, v2_loop, v2_question_step, v2_branch_mc_unfold,
    v2_multiple_choice_obj_list, JVal.dget, JVal.dgetOr, pyContains, pyIter,
    jGetD, jFind, JVal.truthy, ok_bind, objInsert, answerOf, jLookup]

/-- C2 (counterexample): a fill-words phrase of raw strings `["a", "b"]`
makes the comprehension `item.get("value")` raise, so the effective
synthesizer's answer is the empty map `{}`, not the list `["b"]` the claim
states. -/
theorem claim2_counterexample :
    ∃ out, transform_json_for_submission "t"
        (.obj [("questions", .arr [.obj [("id", .num 1), ("type", .str "fill-words"),
          ("options", .obj [("phrase", .arr [.str "a", .str "b"])])]])]) = .ok out ∧
      answerOf out "1" = some (.obj []) ∧
      answerOf out "1" ≠ some (.arr [.str "b"]) := by
  refine ⟨_, rfl, rfl, ?_⟩
  intro hc
  have h2 : some (JVal.obj []) = some (JVal.arr [JVal.str "b"]) := hc
  injection h2 with h3
  exact JVal.noConfusion h3

/-- C2 (amended): for a fill-words phrase that is a list of N dict items,
the effective synthesizer's answer is the list of the `value` fields (null
when absent) of exactly the items at odd 0-indexed positions, in order, of
length `N / 2`; raw-string items make the whole answer collapse to `{}`
(the counterexample), and the `.text`/raw fallbacks exist only in the
shadowed first definition. -/
theorem claim2_amended (now : String) (qid : JVal) (ph : List (List (String × JVal))) :
    ∃ out,
      transform_json_for_submission now
        (.obj [("questions", .arr [.obj [("id", qid), ("type", .str "fill-words"),
          ("options", .obj [("phrase", .arr (ph.map JVal.obj))])]])]) = .ok out ∧
      answerOf out (pyStr qid)
        = some (.arr ((oddIndexItems ph).map fun f => jGetD f "value")) ∧
      (oddIndexItems ph).length = ph.length / 2 := by
  refine ⟨_, rfl, ?_, oddIndexItems_length ph⟩
  cases ph with
  | nil =>
      simp [transform_json_for_submission, v2_loop, v2_question_step, v2_branch_fw_unfold,
        JVal.dget, JVal.dgetOr, pyContains, pyIter, jGetD, jFind, JVal.truthy,
        ok_bind, objInsert, answerOf, jLookup, oddIndexItems, oddFromIndex]
  | cons f rest =>
      have hfw := v2_fill_words_vals_map_obj (f :: rest) 0
      simp only [List.map_cons] at hfw
      simp [transform_json_for_submission, v2_loop, v2_question_step, v2_branch_fw_unfold,
        hfw, JVal.dget, JVal.dgetOr, pyContains, pyIter, jGetD, jFind, JVal.truthy,
        ok_bind, objInsert, answerOf, jLookup, oddIndexItems]

/-- C3 (counterexample): on a task with no `questions` field the effective
synthesizer raises ValueError instead of returning an answer map, so it does
not hold that synthesis never raises to its caller. -/
theorem claim3_counterexample :
    transform_json_for_submission "t" (.obj [("id", .num 1)])
      = .error "ValueError: Estrutura invalida de tarefa" := rfl

/-- C3 (amended): for a task dict whose `questions` field is a list of dict
questions, the effective synthesizer returns normally and every question id
gets an answers entry; a single question whose options have an unexpected
shape gets the empty-map answer while the remaining questions are still
processed (shown concretely: a fill-words question with numeric options next
to a healthy cloud question).  However, a falsy task or one without a
`questions` key raises ValueError (the counterexample). -/
theorem claim3_amended (now : String) (fs : List (String × JVal))
    (qs : List (List (String × JVal)))
    (hq : jFind fs "questions" = some (.arr (qs.map JVal.obj))) :
    (∃ answers, transform_json_for_submission now (.obj fs)
        = .ok (.obj [("accessed_on", (jFind fs "accessed_on").getD (.str now)),
                     ("executed_on", (jFind fs "executed_on").getD (.str now)),
                     ("answers", .obj answers)]) ∧
       ∀ q ∈ qs, (jFind answers (pyStr (jGetD q "id"))).isSome = true) ∧
    transform_json_for_submission "t"
      (.obj [("questions", .arr [
        .obj [("id", .num 1), ("type", .str "fill-words"), ("options", .num 7)],
        .obj [("id", .num 2), ("type", .str "cloud"),
          ("options", .obj [("ids", .arr [.num 7, .num 9])])]])])
      = .ok (.obj [("accessed_on", .str "t"), ("executed_on", .str "t"),
          ("answers", .obj [
            ("1", .obj [("question_id", .num 1), ("question_type", .str "fill-words"),
              ("answer", .obj [])]),
            ("2", .obj [("question_id", .num 2), ("question_type", .str "cloud"),
              ("answer", .arr [.num 7, .num 9])])])]) :=
  ⟨transform_eval now fs qs hq, rfl⟩

/-- C3 (witness): the amended theorem applied to a one-question task. -/
theorem claim3_witness :
    (∃ answers, transform_json_for_submission "n"
        (.obj [("questions", .arr [.obj [("id", .num 1)]])])
        = .ok (.obj [("accessed_on",
                        (jFind [("questions", .arr [.obj [("id", .num 1)]])]
                          "accessed_on").getD (.str "n")),
                     ("executed_on",
                        (jFind [("questions", .arr [.obj [("id", .num 1)]])]
                          "executed_on").getD (.str "n")),
                     ("answers", .obj answers)]) ∧
       ∀ q ∈ [[("id", JVal.num 1)]],
         (jFind answers (pyStr (jGetD q "id"))).isSome = true) ∧
    transform_json_for_submission "t"
      (.obj [("questions", .arr [
        .obj [("id", .num 1), ("type", .str "fill-words"), ("options", .num 7)],
        .obj [("id", .num 2), ("type", .str "cloud"),
          ("options", .obj [("ids", .arr [.num 7, .num 9])])]])])
      = .ok (.obj [("accessed_on", .str "t"), ("executed_on", .str "t"),
          ("answers", .obj [
            ("1", .obj [("question_id", .num 1), ("question_type", .str "fill-words"),
              ("answer", .obj [])]),
            ("2", .obj [("question_id", .num 2), ("question_type", .str "cloud"),
              ("answer", .arr [.num 7, .num 9])])])]) :=
  claim3_amended "n" [("questions", .arr [.obj [("id", .num 1)]])] [[("id", .num 1)]] rfl

/-- C4: `process_one_task_full` never re-raises — it always returns an
outcome, and (shadowing makes the transform call raise TypeError) that
outcome always carries `success = false` and an error string.
`process_one_task` returns an outcome for every dict task, but for a
non-dict task its own except handler references the unassigned `task_id`
and raises UnboundLocalError — the code bug the claim trips over. -/
theorem claim4_thm (fetchD : JVal → Except String JVal)
    (submitA : JVal → JVal → Except String JVal) (rnd : Int → Int → Int)
    (now startTs midTs endTs : String) (tmin tmax : Int) (d : Bool) :
    process_one_task fetchD submitA rnd now (.num 5) tmin tmax d
      = .error "UnboundLocalError: local variable task_id referenced before assignment" ∧
    (∀ fs, (process_one_task fetchD submitA rnd now (.obj fs) tmin tmax d).isOk = true) ∧
    (∀ task_obj,
       jLookup (process_one_task_full fetchD submitA rnd startTs midTs endTs
         task_obj tmin tmax d) "success" = some (.bool false) ∧
       ∃ s, jLookup (process_one_task_full fetchD submitA rnd startTs midTs endTs
         task_obj tmin tmax d) "error" = some (.str s)) := by
  refine ⟨rfl, ?_, ?_⟩
  · intro fs
    simp only [process_one_task]
    split
    · rfl
    · split <;> rfl
  · intro task_obj
    have key : ∃ tid e, process_one_task_full fetchD submitA rnd startTs midTs endTs
        task_obj tmin tmax d = mkFullOutcome startTs endTs tid false (some e) none := by
      cases task_obj with
      | obj fs =>
          simp only [process_one_task_full]
          by_cases ht :
            (pyOrJ (jGetD fs "id") (pyOrJ (jGetD fs "task_id") (jGetD fs "_id"))).truthy
          · simp only [ht, Bool.not_true, Bool.false_eq_true, if_false]
            cases hf : fetchD
                (pyOrJ (jGetD fs "id") (pyOrJ (jGetD fs "task_id") (jGetD fs "_id"))) with
            | error e =>
                refine ⟨pyOrJ (jGetD fs "id") (pyOrJ (jGetD fs "task_id") (jGetD fs "_id")),
                  e, ?_⟩
                simp [hf, error_bind]
            | ok dtl =>
                refine ⟨pyOrJ (jGetD fs "id") (pyOrJ (jGetD fs "task_id") (jGetD fs "_id")),
                  "TypeError: transform_json_for_submission() got an unexpected keyword argument answers_in", ?_⟩
                simp [hf, ok_bind, call_transform_with_answers, error_bind]
          · simp only [ht, Bool.not_false, if_true]
            exact ⟨_, "task sem id", rfl⟩
      | null => exact ⟨_, _, rfl⟩
      | bool b => exact ⟨_, _, rfl⟩
      | num n => exact ⟨_, _, rfl⟩
      | str s => exact ⟨_, _, rfl⟩
      | arr xs => exact ⟨_, _, rfl⟩
    obtain ⟨tid, e, heq⟩ := key
    rw [heq]
    exact ⟨jLookup_mkFullOutcome_success startTs endTs tid false (some e) none,
           e, jLookup_mkFullOutcome_error startTs endTs tid false (some e) none⟩

/-- C5: the batch runner returns exactly one outcome per input assignment,
with `success = false` exactly for the assignments whose (mocked) submit
call fails; one failing assignment only contributes its own failed outcome. -/
theorem claim5_thm (ids : List Int) (bad : Int → Bool) (rnd : Int → Int → Int)
    (now : String) (d : Bool) (h : ∀ k ∈ ids, k ≠ 0) :
    complete_route_results mockFetch (mockSubmit bad) rnd now
        (ids.map fun k => .obj [("id", .num k)]) 1 3 d
      = ids.map (fun k => if bad k
          then .obj [("success", .bool false),
                     ("message", .str "mocked submit failure"), ("task_id", .num k)]
          else .obj [("success", .bool true), ("task_id", .num k),
                     ("result", .str "ok-resp")]) ∧
    (complete_route_results mockFetch (mockSubmit bad) rnd now
        (ids.map fun k => .obj [("id", .num k)]) 1 3 d).length = ids.length := by
  have main := complete_route_mock_eval bad rnd now d ids h
  exact ⟨main, by rw [main]; simp⟩

/-- C5 (witness): two assignments, the second mocked to fail: two outcomes,
failure only for the second. -/
theorem claim5_witness :
    complete_route_results mockFetch (mockSubmit fun k => k == 2) (fun a _ => a) "t"
        ([1, 2].map fun k => .obj [("id", .num k)]) 1 3 false
      = [.obj [("success", .bool true), ("task_id", .num 1), ("result", .str "ok-resp")],
         .obj [("success", .bool false), ("message", .str "mocked submit failure"),
               ("task_id", .num 2)]] ∧
    (complete_route_results mockFetch (mockSubmit fun k => k == 2) (fun a _ => a) "t"
        ([1, 2].map fun k => .obj [("id", .num k)]) 1 3 false).length = 2 := by
  have h := claim5_thm [1, 2] (fun k => k == 2) (fun a _ => a) "t" false (by decide)
  simpa using h

/-- C6: at `time_min = 1, time_max = 3`, `process_one_task` draws the
simulated delay from `randint(60, 180)` as the claim states, but
`process_one_task_full` passes `randint(60, 3600)` — its upper bound
multiplies the already-scaled `sec_min` by 60 again; in both, the real
sleep is `min(simulated, 5)`. -/
theorem claim6_thm (rnd : Int → Int → Int) :
    pacing_full rnd 1 3 = .ok (rnd 60 3600, min (rnd 60 3600) 5) ∧
    pacing_v2 rnd 1 3 = .ok (rnd 60 180, min (rnd 60 180) 5) ∧
    pacing_full (fun _ b => b) 1 3 = .ok (3600, 5) ∧
    pacing_v2 (fun _ b => b) 1 3 = .ok (180, 5) ∧
    pacing_full (fun a _ => a) 1 3 = .ok (60, 5) ∧
    pacing_v2 (fun a _ => a) 1 3 = .ok (60, 5) :=
  ⟨rfl, rfl, rfl, rfl, rfl, rfl⟩

/-- C7: the shadowed first definition does pass a pre-supplied well-formed
answer through unmodified (`"X"` for question 1), but the runtime call that
supplies `answers_in` reaches the one-parameter effective definition and
raises TypeError, so at runtime no pre-supplied answer is ever honoured. -/
theorem claim7_thm :
    (∃ out,
       transform_json_for_submission_v1 "t"
         (.obj [("questions", .arr [.obj [("id", .num 1), ("type", .str "cloud"),
           ("options", .obj [("ids", .arr [.num 7])])]])])
         (.obj [("1", .obj [("answer", .str "X")])]) (fun _ => 0) = .ok out ∧
       answerOf out "1" = some (.str "X")) ∧
    call_transform_with_answers "t"
      (.obj [("questions", .arr [.obj [("id", .num 1), ("type", .str "cloud"),
        ("options", .obj [("ids", .arr [.num 7])])]])])
      (.obj [("1", .obj [("answer", .str "X")])])
      = .error "TypeError: transform_json_for_submission() got an unexpected keyword argument answers_in" :=
  ⟨⟨_, rfl, rfl⟩, rfl⟩

/-- C8: in both payload constructions of the task processors, `final` and
`status` are complementary for every draft flag:
`final = true ↔ status = "submitted"` and `final = false ↔ status = "draft"`. -/
theorem claim8_thm (fs : List (String × JVal)) (d : Bool) (midTs : String) :
    (∃ p, payload_final_of (.obj fs) d = .ok p ∧
       ((jLookup p "final" = some (.bool true)) ↔
        (jLookup p "status" = some (.str "submitted"))) ∧
       ((jLookup p "final" = some (.bool false)) ↔
        (jLookup p "status" = some (.str "draft")))) ∧
    (∃ p, payload_final_full (.obj fs) midTs d = .ok p ∧
       ((jLookup p "final" = some (.bool true)) ↔
        (jLookup p "status" = some (.str "submitted"))) ∧
       ((jLookup p "final" = some (.bool false)) ↔
        (jLookup p "status" = some (.str "draft")))) := by
  cases d <;>
    refine ⟨⟨_, rfl, ?_, ?_⟩, ⟨_, rfl, ?_, ?_⟩⟩ <;>
    simp [jLookup, jFind]

/-- C9 (counterexample): a `long_text` question is not handled by the
effective definition's text branch; with comment `"<b>hi</b> there"` its
answer is `{}` (the generic option mapping over empty options), not
`{"0": "hi there"}` as the claim states. -/
theorem claim9_counterexample :
    ∃ out, transform_json_for_submission "t"
        (.obj [("questions", .arr [.obj [("id", .num 1), ("type", .str "long_text"),
          ("comment", .str "<b>hi</b> there")]])]) = .ok out ∧
      answerOf out "1" = some (.obj []) ∧
      answerOf out "1" ≠ some (.obj [("0", .str "hi there")]) := by
  refine ⟨_, rfl, rfl, ?_⟩
  intro hc
  have h2 : some (JVal.obj []) = some (JVal.obj [("0", JVal.str "hi there")]) := hc
  injection h2 with h3
  injection h3 with h4
  exact List.noConfusion h4

/-- C9 (amended): for a question of type `text_ai`, `text` or `essay` (not
`long_text`, which falls to the generic branch — the counterexample), the
effective synthesizer's answer is `{"0": t}` with `t` the question's
`comment` field, HTML markup stripped and whitespace trimmed; the `value`
and `text` fallbacks exist only in the shadowed first definition. -/
theorem claim9_amended (now : String) (qid : JVal) (tag c : String)
    (htag : tag = "text_ai" ∨ tag = "text" ∨ tag = "essay") :
    ∃ out,
      transform_json_for_submission now
        (.obj [("questions", .arr [.obj [("id", qid), ("type", .str tag),
          ("comment", .str c)]])]) = .ok out ∧
      answerOf out (pyStr qid) = some (.obj [("0", .str (stripHtml c))]) := by
  refine ⟨_, rfl, ?_⟩
  have hb := v2_branch_text (.obj [("id", qid), ("type", .str tag), ("comment", .str c)])
    tag htag
  simp [hb, pyOrJ_str_empty, remove_html_tags_str, transform_json_for_submission,
    v2_loop, v2_question_step, JVal.dget, JVal.dgetOr, pyContains, pyIter,
    jGetD, jFind, JVal.truthy, ok_bind, objInsert, answerOf, jLookup]

/-- C9 (witness): the spec's scenario, `text_ai` with comment
`"<b>hi</b> there"`, yields `{"0": "hi there"}`. -/
theorem claim9_witness :
    ∃ out,
      transform_json_for_submission "t"
        (.obj [("questions", .arr [.obj [("id", .num 1), ("type", .str "text_ai"),
          ("comment", .str "<b>hi</b> there")]])]) = .ok out ∧
      answerOf out "1" = some (.obj [("0", .str "hi there")]) := by
  have h := claim9_amended "t" (.num 1) "text_ai" "<b>hi</b> there" (Or.inl rfl)
  have e1 : stripHtml "<b>hi</b> there" = "hi there" := by decide
  have e2 : pyStr (.num 1) = "1" := rfl
  rw [e1, e2] at h
  exact h

/-- C10 (counterexample): the two definitions disagree at a one-question
multiple-choice task: the shadowed first returns the scalar id `"A"`, the
effective second the map `{"A": true}`. -/
theorem claim10_counterexample :
    ∃ o1 o2,
      transform_json_for_submission_v1 "t"
        (.obj [("questions", .arr [.obj [("id", .num 1), ("type", .str "multiple_choice"),
          ("options", .arr [.obj [("id", .str "A"), ("correct", .bool true)]])]])])
        .null (fun _ => 0) = .ok o1 ∧
      transform_json_for_submission "t"
        (.obj [("questions", .arr [.obj [("id", .num 1), ("type", .str "multiple_choice"),
          ("options", .arr [.obj [("id", .str "A"), ("correct", .bool true)]])]])])
        = .ok o2 ∧
      answerOf o1 "1" = some (.str "A") ∧
      answerOf o2 "1" = some (.obj [("A", .bool true)]) ∧
      answerOf o1 "1" ≠ answerOf o2 "1" := by
  refine ⟨_, _, rfl, rfl, rfl, rfl, ?_⟩
  intro hc
  have h2 : some (JVal.str "A") = some (JVal.obj [("A", JVal.bool true)]) := hc
  injection h2 with h3
  exact JVal.noConfusion h3

/-- C10 (amended): the two definitions are not extensionally equal (the
counterexample); what does hold is that on a task whose `questions` field is
a non-empty list of dict questions with truthy ids, both succeed, agree on
`accessed_on`/`executed_on`, and produce answers maps over the same key
sequence — while the per-question answer values differ in general. -/
theorem claim10_amended (now : String) (fs : List (String × JVal))
    (qs : List (List (String × JVal))) (rnd6 : Nat → Nat)
    (hq : jFind fs "questions" = some (.arr (qs.map JVal.obj)))
    (hne : qs ≠ [])
    (hid : ∀ q ∈ qs, (jGetD q "id").truthy = true) :
    ∃ a1 a2,
      transform_json_for_submission_v1 now (.obj fs) .null rnd6
        = .ok (.obj [("accessed_on", (jFind fs "accessed_on").getD (.str now)),
                     ("executed_on", (jFind fs "executed_on").getD (.str now)),
                     ("answers", .obj a1)]) ∧
      transform_json_for_submission now (.obj fs)
        = .ok (.obj [("accessed_on", (jFind fs "accessed_on").getD (.str now)),
                     ("executed_on", (jFind fs "executed_on").getD (.str now)),
                     ("answers", .obj a2)]) ∧
      a1.map Prod.fst = a2.map Prod.fst := by
  obtain ⟨o1, o2, e1, e2, ekeys⟩ :=
    loops_keys_eq (.obj []) rnd6 qs hid ⟨none, 0⟩ [] [] rfl
  refine ⟨o1, o2, ?_, ?_, ekeys⟩
  · cases fs with
    | nil => simp [jFind] at hq
    | cons kv rest =>
        cases qs with
        | nil => exact absurd rfl hne
        | cons qh qt =>
            simp only [List.map_cons] at e1
            simp [transform_json_for_submission_v1, JVal.truthy, JVal.dget, jGetD, hq,
              JVal.dgetOr, pyIter, e1, ok_bind]
  · cases fs with
    | nil => simp [jFind] at hq
    | cons kv rest =>
        simp [transform_json_for_submission, JVal.truthy, pyContains, hq, JVal.dgetOr,
          pyIter, e2, ok_bind]

/-- C10 (witness): the amended key-agreement applied to a concrete
two-question task where the answer values themselves differ. -/
theorem claim10_witness :
    ∃ a1 a2,
      transform_json_for_submission_v1 "t"
        (.obj [("questions", .arr [
          .obj [("id", .num 1), ("type", .str "multiple_choice"),
            ("options", .arr [.obj [("id", .str "A"), ("correct", .bool true)]])],
          .obj [("id", .num 2), ("type", .str "cloud"),
            ("options", .obj [("ids", .arr [.num 7])])]])])
        .null (fun _ => 0)
        = .ok (.obj [("accessed_on",
                        (jFind [("questions", .arr [
                          .obj [("id", .num 1), ("type", .str "multiple_choice"),
                            ("options", .arr [.obj [("id", .str "A"),
                              ("correct", .bool true)]])],
                          .obj [("id", .num 2), ("type", .str "cloud"),
                            ("options", .obj [("ids", .arr [.num 7])])]])]
                          "accessed_on").getD (.str "t")),
                     ("executed_on",
                        (jFind [("questions", .arr [
                          .obj [("id", .num 1), ("type", .str "multiple_choice"),
                            ("options", .arr [.obj [("id", .str "A"),
                              ("correct", .bool true)]])],
                          .obj [("id", .num 2), ("type", .str "cloud"),
                            ("options", .obj [("ids", .arr [.num 7])])]])]
                          "executed_on").getD (.str "t")),
                     ("answers", .obj a1)]) ∧
      transform_json_for_submission "t"
        (.obj [("questions", .arr [
          .obj [("id", .num 1), ("type", .str "multiple_choice"),
            ("options", .arr [.obj [("id", .str "A"), ("correct", .bool true)]])],
          .obj [("id", .num 2), ("type", .str "cloud"),
            ("options", .obj [("ids", .arr [.num 7])])]])])
        = .ok (.obj [("accessed_on",
                        (jFind [("questions", .arr [
                          .obj [("id", .num 1), ("type", .str "multiple_choice"),
                            ("options", .arr [.obj [("id", .str "A"),
                              ("correct", .bool true)]])],
                          .obj [("id", .num 2), ("type", .str "cloud"),
                            ("options", .obj [("ids", .arr [.num 7])])]])]
                          "accessed_on").getD (.str "t")),
                     ("executed_on",
                        (jFind [("questions", .arr [
                          .obj [("id", .num 1), ("type", .str "multiple_choice"),
                            ("options", .arr [.obj [("id", .str "A"),
                              ("correct", .bool true)]])],
                          .obj [("id", .num 2), ("type", .str "cloud"),
                            ("options", .obj [("ids", .arr [.num 7])])]])]
                          "executed_on").getD (.str "t")),
                     ("answers", .obj a2)]) ∧
      a1.map Prod.fst = a2.map Prod.fst :=
  claim10_amended "t"
    [("questions", .arr [
      .obj [("id", .num 1), ("type", .str "multiple_choice"),
        ("options", .arr [.obj [("id", .str "A"), ("correct", .bool true)]])],
      .obj [("id", .num 2), ("type", .str "cloud"),
        ("options", .obj [("ids", .arr [.num 7])])]])]
    [[("id", .num 1), ("type", .str "multiple_choice"),
      ("options", .arr [.obj [("id", .str "A"), ("correct", .bool true)]])],
     [("id", .num 2), ("type", .str "cloud"),
      ("options", .obj [("ids", .arr [.num 7])])]]
    (fun _ => 0) rfl (by simp) (by decide)
